import Mathlib

/-!
Shallow embedding of `src/monitors/ContractMonitor.js` (UMA protocol contract monitor).

The module watches four categories of contract events (new sponsors, liquidations,
disputes, dispute settlements).  For each category it keeps a watermark
(`last...BlockNumber`), filters the fetched event list down to events strictly newer
than the watermark, renders one info-level alert per new event, and finally sets the
watermark from the tail of the full fetched list (`getLastSeenBlockNumber`).

Machine integers: all monetary quantities are JS `BN` arbitrary-precision integers
(non-negative in this contract), embedded as `Nat`.  `BN.div` truncates, which on
non-negative operands is `Nat` division; division by zero throws, embedded as
`Except BNError`.  External collaborators that are not part of the source file
(the event client, the price feed, the EMP contract reads, and the formatting
helpers from `src/common/FormattingUtils.js`) are embedded as explicit parameters.
-/

namespace Spec2Proof

/-! ## Event categories (ContractMonitor.js event shapes) -/

/-- Shape of a `NewSponsor` event as consumed by `checkForNewSponsors`
(fields read at lines 97-116). -/
structure SponsorEvent where
  sponsor : String
  tokenAmount : Nat
  collateralAmount : Nat
  transactionHash : String
  blockNumber : Nat
deriving DecidableEq

/-- Shape of a liquidation event as consumed by `checkForNewLiquidations`
(fields read at lines 143-200). -/
structure LiquidationEvent where
  sponsor : String
  liquidator : String
  liquidationId : Nat
  lockedCollateral : Nat
  liquidatedCollateral : Nat
  tokensOutstanding : Nat
  transactionHash : String
  blockNumber : Nat
deriving DecidableEq

/-- Shape of a dispute event as consumed by `checkForNewDisputeEvents`
(fields read at lines 223-238). -/
structure DisputeEvent where
  disputer : String
  liquidator : String
  disputeBondAmount : Nat
  transactionHash : String
  blockNumber : Nat
deriving DecidableEq

/-- Shape of a dispute settlement event as consumed by
`checkForNewDisputeSettlementEvents` (fields read at lines 263-278). -/
structure DisputeSettlementEvent where
  liquidator : String
  disputer : String
  disputeSucceeded : Bool
  transactionHash : String
  blockNumber : Nat
deriving DecidableEq

/-- The JS code is duck-typed: `getLastSeenBlockNumber` and the `filter` in each
check-method only read `event.blockNumber`.  This class captures that common field. -/
class HasBlockNumber (α : Type) where
  blockNumber : α → Nat

/-- The `event.blockNumber` read. -/
def bnum {α : Type} [HasBlockNumber α] (e : α) : Nat := HasBlockNumber.blockNumber e

instance : HasBlockNumber SponsorEvent := ⟨SponsorEvent.blockNumber⟩

instance : HasBlockNumber LiquidationEvent := ⟨LiquidationEvent.blockNumber⟩

instance : HasBlockNumber DisputeEvent := ⟨DisputeEvent.blockNumber⟩

instance : HasBlockNumber DisputeSettlementEvent := ⟨DisputeSettlementEvent.blockNumber⟩

/-! ## Watermark logic (lines 74-79 and the filter / final assignment of each pass) -/

/-- Lines 74-79:
`if (eventArray.length == 0) { return 0; } return eventArray[eventArray.length - 1].blockNumber;` -/
def getLastSeenBlockNumber {α : Type} [HasBlockNumber α] (eventArray : List α) : Nat :=
  match eventArray.getLast? with
  | none => 0
  | some e => bnum e

/-- The diff step common to all four check-methods, e.g. line 93:
`latestNewSponsorEvents.filter(event => event.blockNumber > this.lastNewSponsorBlockNumber)`. -/
def newEvents {α : Type} [HasBlockNumber α] (latest : List α) (lastSeen : Nat) : List α :=
  latest.filter (fun e => decide (lastSeen < bnum e))

/-- Repeated invocations of one check-method: for each fetched list in turn, the batch
of events alerted in that pass (the filtered list), with the watermark carried between
passes exactly as the code does (set from the full fetched list, line 124/208/246/285). -/
def runAlerts {α : Type} [HasBlockNumber α] : List (List α) → Nat → List (List α)
  | [], _ => []
  | latest :: rest, lastSeen =>
      newEvents latest lastSeen :: runAlerts rest (getLastSeenBlockNumber latest)

/-- The watermark after a sequence of invocations with the given fetched lists.
Note the incoming watermark is discarded on every non-empty step: line 124 assigns
`getLastSeenBlockNumber(latestNewSponsorEvents)` unconditionally. -/
def runWatermark {α : Type} [HasBlockNumber α] : List (List α) → Nat → Nat
  | [], lastSeen => lastSeen
  | latest :: rest, _ => runWatermark rest (getLastSeenBlockNumber latest)

/-- Maximum block number over a list of events (0 for the empty list).  Spec-side
notion used to state the watermark invariant; the code itself only reads the tail. -/
def maxBlock {α : Type} [HasBlockNumber α] (l : List α) : Nat :=
  l.foldr (fun e acc => max (bnum e) acc) 0

/-- Block numbers are non-decreasing within one fetched list. -/
abbrev SortedByBlock {α : Type} [HasBlockNumber α] (l : List α) : Prop :=
  l.Pairwise (fun a b => bnum a ≤ bnum b)

/-- Block numbers are non-decreasing across successive fetches: every event of a fetch
has a block number less than or equal to every event of the next fetch. -/
abbrev FetchesOrdered {α : Type} [HasBlockNumber α] (fetches : List (List α)) : Prop :=
  fetches.Chain' (fun l l' => ∀ a ∈ l, ∀ b ∈ l', bnum a ≤ bnum b)

/-! ## Fixed-point arithmetic (lines 55-72) -/

/-- 10^18, the value of `toBN(toWei("1"))`. -/
def WEI : Nat := 10 ^ 18

/-- The failure raised by `BN.div` when the divisor is zero. -/
inductive BNError where
  | divisionByZero
deriving DecidableEq

/-- `BN` division: truncating division on non-negative operands, throwing on a zero
divisor. -/
def bnDiv (a b : Nat) : Except BNError Nat :=
  if b = 0 then .error .divisionByZero else .ok (a / b)

/-- Lines 55-61:
`toBN(collateral).mul(toBN(toWei("1"))).mul(toBN(toWei("1"))).div(toBN(tokensOutstanding).mul(toBN(tokenPrice))).muln(100)`. -/
def calculatePositionCRPercent (collateral tokensOutstanding tokenPrice : Nat) :
    Except BNError Nat :=
  match bnDiv (collateral * WEI * WEI) (tokensOutstanding * tokenPrice) with
  | .error e => .error e
  | .ok q => .ok (q * 100)

/-- Lines 65-72:
`toBN(liquidatedCollateral).mul(toBN(toWei("1"))).div(toBN(liquidatedTokens)).mul(toBN(toWei("1"))).div(toBN(crRequirement))`. -/
def calculateDisputablePrice (crRequirement liquidatedCollateral liquidatedTokens : Nat) :
    Except BNError Nat :=
  match bnDiv (liquidatedCollateral * WEI) liquidatedTokens with
  | .error e => .error e
  | .ok q => bnDiv (q * WEI) crRequirement

/-! ## Constructor state and collaborators (lines 4, 22-51) -/

/-- The `contractMonitorConfigObject` argument of the constructor (lines 26-27). -/
structure ContractMonitorConfig where
  monitoredLiquidators : List String
  monitoredDisputers : List String

/-- The `empProps` argument of the constructor (lines 16-20, 43-44). -/
structure EmpProps where
  collateralCurrencySymbol : String
  syntheticCurrencySymbol : String
  priceIdentifier : String
  networkId : Nat

/-- Modelled from the spec: the pure formatting helpers imported at line 4 live in
`src/common/FormattingUtils.js`, which is not among the provided sources.  The spec
(sections 4.3 and 6) treats them as pure external collaborators with no failure modes,
so they are embedded as abstract string-producing functions.
`formatDecimalUndefined` is the string produced when `formatDecimalString` is applied
to an absent (JS `undefined`) value, as happens at line 194 when the price is missing. -/
structure Renderers where
  createEtherscanLinkMarkdown : String → Nat → String
  formatDecimalString : Nat → String
  formatDecimalUndefined : String

/-- The mutable fields of the `ContractMonitor` instance, as assigned by the
constructor (lines 22-51).  The external collaborators stored on `this` (logger,
event client, price feed, web3) are embedded as explicit arguments of the
check-methods instead.  The field `syntheticCurrencySymbol` models the *top-level*
property `this.syntheticCurrencySymbol` read at line 190: the constructor never
assigns it (it only stores the symbol inside `this.empProps`), so a read yields the
JS value `undefined`, embedded as an `Option String` that the constructor leaves at
`none`. -/
structure ContractMonitor where
  monitoredLiquidators : List String
  monitoredDisputers : List String
  lastLiquidationBlockNumber : Nat
  lastDisputeBlockNumber : Nat
  lastDisputeSettlementBlockNumber : Nat
  lastNewSponsorBlockNumber : Nat
  empProps : EmpProps
  syntheticCurrencySymbol : Option String

/-- The constructor body (lines 22-51): stores the two monitored-address lists and
`empProps`, and initializes the four watermarks to 0.  No assignment to
`this.syntheticCurrencySymbol` appears anywhere in the class, so that property stays
`undefined` (`none`). -/
def ContractMonitor.construct (cfg : ContractMonitorConfig) (props : EmpProps) :
    ContractMonitor where
  monitoredLiquidators := cfg.monitoredLiquidators
  monitoredDisputers := cfg.monitoredDisputers
  lastLiquidationBlockNumber := 0
  lastDisputeBlockNumber := 0
  lastDisputeSettlementBlockNumber := 0
  lastNewSponsorBlockNumber := 0
  empProps := props
  syntheticCurrencySymbol := none

/-- How JS renders a possibly-undefined string inside string concatenation:
`undefined` becomes the literal text `"undefined"`. -/
def renderJsString : Option String → String
  | none => "undefined"
  | some s => s

/-- `Array.prototype.indexOf`: index of the first occurrence, `-1` when absent
(lines 97-98, 178, 229, 232, 271, 274). -/
def jsIndexOf (l : List String) (a : String) : Int :=
  match l.findIdx? (fun s => s == a) with
  | some i => (i : Int)
  | none => -1

/-! ## Log records (the `this.logger.debug/info/warn` calls) -/

/-- Winston log levels used by this module. -/
inductive LogLevel where
  | debug
  | info
  | warn
deriving DecidableEq

/-- One emitted log record: level, the `message` field, and the `mrkdwn` field
(empty for the debug and warn records, which carry no `mrkdwn`). -/
structure LogRecord where
  level : LogLevel
  message : String
  mrkdwn : String
deriving DecidableEq

/-! ## checkForNewSponsors (lines 82-125) -/

/-- The debug record of lines 83-87. -/
def sponsorDebugRecord : LogRecord :=
  ⟨.debug, "Checking for new sponsor events", ""⟩

/-- The info alert of lines 104-122, with the membership test of lines 97-99 passed
in as the boolean `isMonitoredBot`. -/
def sponsorAlertRecord (R : Renderers) (props : EmpProps) (isMonitoredBot : Bool)
    (event : SponsorEvent) : LogRecord :=
  ⟨.info, "New Sponsor Alert 🐣!",
    R.createEtherscanLinkMarkdown event.sponsor props.networkId ++
    (if isMonitoredBot then " (Monitored liquidator or disputer bot)" else "") ++
    " created " ++
    R.formatDecimalString event.tokenAmount ++
    " " ++
    props.syntheticCurrencySymbol ++
    " backed by " ++
    R.formatDecimalString event.collateralAmount ++
    " " ++
    props.collateralCurrencySymbol ++
    ". tx: " ++
    R.createEtherscanLinkMarkdown event.transactionHash props.networkId⟩

/-- Lines 82-125: emit the debug record, filter the fetched list against the sponsor
watermark, emit one info alert per new event, then set the watermark from the full
fetched list. -/
def checkForNewSponsors (R : Renderers) (m : ContractMonitor)
    (latestNewSponsorEvents : List SponsorEvent) : List LogRecord × ContractMonitor :=
  (sponsorDebugRecord ::
    (newEvents latestNewSponsorEvents m.lastNewSponsorBlockNumber).map (fun event =>
      sponsorAlertRecord R m.empProps
        (jsIndexOf m.monitoredLiquidators event.sponsor != -1 ||
          jsIndexOf m.monitoredDisputers event.sponsor != -1)
        event),
   { m with lastNewSponsorBlockNumber := getLastSeenBlockNumber latestNewSponsorEvents })

/-! ## checkForNewLiquidations (lines 128-209) -/

/-- The per-pass external reads of lines 144-151: the liquidation struct read
(`liquidations(sponsor, liquidationId).call()`, of which only `liquidationTime` is
used), the price feed (`getHistoricalPrice`, which may return an absent price), and
the contract collateral requirement. -/
structure LiquidationEnv where
  liquidationTime : String → Nat → Nat
  getHistoricalPrice : Nat → Option Nat
  collateralRequirement : Nat

/-- The debug record of lines 129-133. -/
def liquidationDebugRecord : LogRecord :=
  ⟨.debug, "Checking for new liquidation events", ""⟩

/-- The warn record of lines 161-166, emitted when the historical price is absent. -/
def priceMissWarnRecord : LogRecord :=
  ⟨.warn, "Could not get historical price for liquidation", ""⟩

/-- The liquidation alert text of lines 176-200.  `synthSymbol` is the value of the
top-level property `this.syntheticCurrencySymbol` (line 190), `price` the possibly
absent historical price (rendered through `formatDecimalString` at line 194), and the
two derived strings are passed in already rendered (either formatted numbers or the
`"[Invalid]"` marker). -/
def liquidationMrkdwn (R : Renderers) (props : EmpProps) (synthSymbol : Option String)
    (isMonitoredLiquidator : Bool) (event : LiquidationEvent) (price : Option Nat)
    (collateralizationString maxPriceToBeDisputableString : String)
    (crRequirementString : Nat) : String :=
  R.createEtherscanLinkMarkdown event.liquidator props.networkId ++
  (if isMonitoredLiquidator then " (Monitored liquidator bot)" else "") ++
  " initiated liquidation for " ++
  R.formatDecimalString event.lockedCollateral ++
  " (liquidated collateral = " ++
  R.formatDecimalString event.liquidatedCollateral ++
  ") " ++
  props.collateralCurrencySymbol ++
  " of sponsor " ++
  R.createEtherscanLinkMarkdown event.sponsor props.networkId ++
  " collateral backing " ++
  R.formatDecimalString event.tokensOutstanding ++
  " " ++
  renderJsString synthSymbol ++
  " tokens. Sponsor collateralization (\x27liquidatedCollateral / tokensOutsanding\x27) was " ++
  collateralizationString ++
  "%, using " ++
  (match price with
   | some p => R.formatDecimalString p
   | none => R.formatDecimalUndefined) ++
  " as the estimated price at liquidation time. With a collateralization requirement of " ++
  R.formatDecimalString crRequirementString ++
  "%, this liquidation would be disputable at a price below " ++
  maxPriceToBeDisputableString ++
  ". tx: " ++
  R.createEtherscanLinkMarkdown event.transactionHash props.networkId

/-- The info alert of lines 202-206 for one liquidation event, with the membership
test of line 178 computed from the monitor state. -/
def liquidationAlertRecord (R : Renderers) (m : ContractMonitor) (event : LiquidationEvent)
    (price : Option Nat) (collateralizationString maxPriceToBeDisputableString : String)
    (crRequirementString : Nat) : LogRecord :=
  ⟨.info, "Liquidation Alert 🧙‍♂️!",
    liquidationMrkdwn R m.empProps m.syntheticCurrencySymbol
      (jsIndexOf m.monitoredLiquidators event.liquidator != -1)
      event price collateralizationString maxPriceToBeDisputableString
      crRequirementString⟩

/-- The loop body of lines 143-206 for one new liquidation event.  When the price is
present, the two derived figures are computed (lines 153-159); either division may
throw, in which case the exception propagates (there is no try/catch in the source)
and no record is emitted for this event.  When the price is absent, the warn record
is emitted and both derived fields degrade to `"[Invalid]"` (lines 160-169); the info
alert is emitted in both non-throwing cases. -/
def processLiquidationEvent (R : Renderers) (env : LiquidationEnv) (m : ContractMonitor)
    (event : LiquidationEvent) : Except BNError (List LogRecord) :=
  let liquidationTime := env.liquidationTime event.sponsor event.liquidationId
  let price := env.getHistoricalPrice liquidationTime
  let crRequirement := env.collateralRequirement
  let crRequirementString := crRequirement * 100
  match price with
  | some p =>
    match calculatePositionCRPercent event.liquidatedCollateral event.tokensOutstanding p with
    | .error err => .error err
    | .ok cr =>
      match calculateDisputablePrice crRequirement event.liquidatedCollateral
          event.tokensOutstanding with
      | .error err => .error err
      | .ok dp =>
        .ok [liquidationAlertRecord R m event price
              (R.formatDecimalString cr) (R.formatDecimalString dp) crRequirementString]
  | none =>
    .ok [priceMissWarnRecord,
         liquidationAlertRecord R m event none "[Invalid]" "[Invalid]" crRequirementString]

/-- Outcome of the event loop: either every event was processed (all records listed),
or an exception was thrown part-way, carrying the records emitted before the throw. -/
inductive PassOutcome where
  | completed (logs : List LogRecord)
  | aborted (logs : List LogRecord) (err : BNError)
deriving DecidableEq

/-- The `for` loop of lines 143-207: events processed oldest to newest; a thrown
exception stops the loop (records already emitted stand, later events are skipped). -/
def processLiquidationEvents (R : Renderers) (env : LiquidationEnv) (m : ContractMonitor) :
    List LiquidationEvent → PassOutcome
  | [] => .completed []
  | event :: rest =>
    match processLiquidationEvent R env m event with
    | .error err => .aborted [] err
    | .ok logs =>
      match processLiquidationEvents R env m rest with
      | .completed more => .completed (logs ++ more)
      | .aborted more err => .aborted (logs ++ more) err

/-- The records an event contributes when it does not throw (empty if it throws). -/
def eventLogs (R : Renderers) (env : LiquidationEnv) (m : ContractMonitor)
    (event : LiquidationEvent) : List LogRecord :=
  match processLiquidationEvent R env m event with
  | .ok logs => logs
  | .error _ => []

/-- Lines 128-209: emit the debug record, filter against the liquidation watermark,
process each new event in order, then set the watermark from the full fetched list
(line 208).  If the loop throws, line 208 is never reached: the watermark is
unchanged and the rejection (`some err`) propagates to the caller. -/
def checkForNewLiquidations (R : Renderers) (env : LiquidationEnv) (m : ContractMonitor)
    (latestLiquidationEvents : List LiquidationEvent) :
    List LogRecord × ContractMonitor × Option BNError :=
  match processLiquidationEvents R env m
      (newEvents latestLiquidationEvents m.lastLiquidationBlockNumber) with
  | .completed logs =>
    (liquidationDebugRecord :: logs,
     { m with lastLiquidationBlockNumber := getLastSeenBlockNumber latestLiquidationEvents },
     none)
  | .aborted logs err => (liquidationDebugRecord :: logs, m, some err)

/-! ## checkForNewDisputeEvents (lines 211-247) -/

/-- The debug record of lines 212-216. -/
def disputeDebugRecord : LogRecord :=
  ⟨.debug, "Checking for new dispute events", ""⟩

/-- The info alert of lines 227-244, with the two membership tests of lines 229 and
232 passed in as booleans. -/
def disputeAlertRecord (R : Renderers) (props : EmpProps)
    (isMonitoredDisputer isMonitoredLiquidator : Bool) (event : DisputeEvent) : LogRecord :=
  ⟨.info, "Dispute Alert 👻!",
    R.createEtherscanLinkMarkdown event.disputer props.networkId ++
    (if isMonitoredDisputer then " (Monitored dispute bot)" else "") ++
    " initiated dispute against liquidator " ++
    R.createEtherscanLinkMarkdown event.liquidator props.networkId ++
    (if isMonitoredLiquidator then " (Monitored liquidator bot)" else "") ++
    " with a dispute bond of " ++
    R.formatDecimalString event.disputeBondAmount ++
    " " ++
    props.collateralCurrencySymbol ++
    ". tx: " ++
    R.createEtherscanLinkMarkdown event.transactionHash props.networkId⟩

/-- Lines 211-247. -/
def checkForNewDisputeEvents (R : Renderers) (m : ContractMonitor)
    (latestDisputeEvents : List DisputeEvent) : List LogRecord × ContractMonitor :=
  (disputeDebugRecord ::
    (newEvents latestDisputeEvents m.lastDisputeBlockNumber).map (fun event =>
      disputeAlertRecord R m.empProps
        (jsIndexOf m.monitoredDisputers event.disputer != -1)
        (jsIndexOf m.monitoredLiquidators event.liquidator != -1)
        event),
   { m with lastDisputeBlockNumber := getLastSeenBlockNumber latestDisputeEvents })

/-! ## checkForNewDisputeSettlementEvents (lines 249-286) -/

/-- The debug record of lines 250-254. -/
def disputeSettlementDebugRecord : LogRecord :=
  ⟨.debug, "Checking for new dispute settlement events", ""⟩

/-- The info alert of lines 268-283 (note: the two monitored annotations at lines 271
and 274 have no leading space in the source). -/
def disputeSettlementAlertRecord (R : Renderers) (props : EmpProps)
    (isMonitoredLiquidator isMonitoredDisputer : Bool) (event : DisputeSettlementEvent) :
    LogRecord :=
  ⟨.info, "Dispute Settlement Alert 👮‍♂️!",
    "Dispute between liquidator " ++
    R.createEtherscanLinkMarkdown event.liquidator props.networkId ++
    (if isMonitoredLiquidator then "(Monitored liquidator bot)" else "") ++
    " and disputer " ++
    R.createEtherscanLinkMarkdown event.disputer props.networkId ++
    (if isMonitoredDisputer then "(Monitored dispute bot)" else "") ++
    " has been resolved as " ++
    (if event.disputeSucceeded then "success" else "failed") ++
    ". tx: " ++
    R.createEtherscanLinkMarkdown event.transactionHash props.networkId⟩

/-- Lines 249-286. -/
def checkForNewDisputeSettlementEvents (R : Renderers) (m : ContractMonitor)
    (latestDisputeSettlementEvents : List DisputeSettlementEvent) :
    List LogRecord × ContractMonitor :=
  (disputeSettlementDebugRecord ::
    (newEvents latestDisputeSettlementEvents m.lastDisputeSettlementBlockNumber).map
      (fun event =>
        disputeSettlementAlertRecord R m.empProps
          (jsIndexOf m.monitoredLiquidators event.liquidator != -1)
          (jsIndexOf m.monitoredDisputers event.disputer != -1)
          event),
   { m with
      lastDisputeSettlementBlockNumber :=
        getLastSeenBlockNumber latestDisputeSettlementEvents })

/-- All records of a list of events that process without throwing, in order
(spec-side bookkeeping used to describe the loop's output). -/
def passLogs (R : Renderers) (env : LiquidationEnv) (m : ContractMonitor)
    (l : List LiquidationEvent) : List LogRecord :=
  (l.map (eventLogs R env m)).flatten

/-! ## Concrete sample data (used by witnesses and counterexamples) -/

/-- The example `empProps` from the constructor's doc comment (lines 16-20). -/
def sampleProps : EmpProps := ⟨"DAI", "ETHBTC", "ETH/BTC", 1⟩

/-- Trivial instantiation of the abstract formatting collaborators. -/
def trivialRenderers : Renderers := ⟨fun _ _ => "", fun _ => "", ""⟩

/-- A freshly constructed monitor (all four watermarks 0). -/
def baseMonitor : ContractMonitor := ContractMonitor.construct ⟨[], []⟩ sampleProps

/-- A sample sponsor event at the given block number. -/
def sponsorEventAt (b : Nat) : SponsorEvent := ⟨"0xdead", 7, 9, "0xtx", b⟩

/-- A sample liquidation event (non-zero token amount) at the given block number. -/
def liqEventAt (b : Nat) : LiquidationEvent := ⟨"0xsp", "0xlq", 0, 100, 100, 50, "0xtx2", b⟩

/-- A liquidation event with `tokensOutstanding = 0` at block 5: feeding it to the
collateralization computation divides by zero. -/
def liqZeroTokens : LiquidationEvent := ⟨"0xsp", "0xlq", 0, 100, 100, 0, "0xtx3", 5⟩

/-- A price feed that has no historical price for any timestamp. -/
def envNoPrice : LiquidationEnv := ⟨fun _ _ => 0, fun _ => none, 3⟩

/-- A price feed returning price 1 for every timestamp, collateral requirement 1. -/
def envUnitPrice : LiquidationEnv := ⟨fun _ _ => 0, fun _ => some 1, 1⟩

/-- A monitor whose sponsor watermark has already advanced to 7. -/
def monitorSponsorWm7 : ContractMonitor :=
  { baseMonitor with lastNewSponsorBlockNumber := 7 }

/-! ## Spec-side relations and decompositions -/

/-- Two log records that agree except possibly in the sponsor alert's monitored-bot
annotation: same level and message, and either equal or both the same sponsor alert
up to the membership boolean. -/
def sponsorAlertUpToFlag (R : Renderers) (props : EmpProps) (r₁ r₂ : LogRecord) : Prop :=
  r₁.level = r₂.level ∧ r₁.message = r₂.message ∧
  (r₁ = r₂ ∨ ∃ b₁ b₂ e, r₁ = sponsorAlertRecord R props b₁ e ∧
    r₂ = sponsorAlertRecord R props b₂ e)

/-- Two log records that agree except possibly in the liquidation alert's
monitored-liquidator annotation. -/
def liqAlertUpToFlag (R : Renderers) (props : EmpProps) (synth : Option String)
    (r₁ r₂ : LogRecord) : Prop :=
  r₁.level = r₂.level ∧ r₁.message = r₂.message ∧
  (r₁ = r₂ ∨ ∃ b₁ b₂ e price cs mps crs,
    r₁ = ⟨.info, "Liquidation Alert 🧙‍♂️!",
           liquidationMrkdwn R props synth b₁ e price cs mps crs⟩ ∧
    r₂ = ⟨.info, "Liquidation Alert 🧙‍♂️!",
           liquidationMrkdwn R props synth b₂ e price cs mps crs⟩)

/-- Two log records that agree except possibly in the dispute alert's two
monitored-bot annotations. -/
def disputeAlertUpToFlag (R : Renderers) (props : EmpProps) (r₁ r₂ : LogRecord) : Prop :=
  r₁.level = r₂.level ∧ r₁.message = r₂.message ∧
  (r₁ = r₂ ∨ ∃ bd₁ bl₁ bd₂ bl₂ e, r₁ = disputeAlertRecord R props bd₁ bl₁ e ∧
    r₂ = disputeAlertRecord R props bd₂ bl₂ e)

/-- Two log records that agree except possibly in the dispute settlement alert's two
monitored-bot annotations. -/
def settlementAlertUpToFlag (R : Renderers) (props : EmpProps) (r₁ r₂ : LogRecord) : Prop :=
  r₁.level = r₂.level ∧ r₁.message = r₂.message ∧
  (r₁ = r₂ ∨ ∃ bl₁ bd₁ bl₂ bd₂ e,
    r₁ = disputeSettlementAlertRecord R props bl₁ bd₁ e ∧
    r₂ = disputeSettlementAlertRecord R props bl₂ bd₂ e)

/-- Loop outcomes that agree up to monitored-bot annotations: same constructor, same
error, records pointwise related. -/
def outcomeUpToFlag (R : Renderers) (props : EmpProps) (synth : Option String) :
    PassOutcome → PassOutcome → Prop
  | .completed l₁, .completed l₂ => List.Forall₂ (liqAlertUpToFlag R props synth) l₁ l₂
  | .aborted l₁ e₁, .aborted l₂ e₂ =>
      e₁ = e₂ ∧ List.Forall₂ (liqAlertUpToFlag R props synth) l₁ l₂
  | _, _ => False

/-- The part of the liquidation alert text strictly before the token-symbol slot
(spec-side decomposition of `liquidationMrkdwn`). -/
def liqMrkdwnHead (R : Renderers) (props : EmpProps) (isMonitoredLiquidator : Bool)
    (event : LiquidationEvent) : String :=
  R.createEtherscanLinkMarkdown event.liquidator props.networkId ++
  (if isMonitoredLiquidator then " (Monitored liquidator bot)" else "") ++
  " initiated liquidation for " ++
  R.formatDecimalString event.lockedCollateral ++
  " (liquidated collateral = " ++
  R.formatDecimalString event.liquidatedCollateral ++
  ") " ++
  props.collateralCurrencySymbol ++
  " of sponsor " ++
  R.createEtherscanLinkMarkdown event.sponsor props.networkId ++
  " collateral backing " ++
  R.formatDecimalString event.tokensOutstanding ++
  " "

/-- The part of the liquidation alert text strictly after the token-symbol slot
(spec-side decomposition of `liquidationMrkdwn`). -/
def liqMrkdwnTail (R : Renderers) (props : EmpProps) (event : LiquidationEvent)
    (price : Option Nat) (collateralizationString maxPriceToBeDisputableString : String)
    (crRequirementString : Nat) : String :=
  " tokens. Sponsor collateralization (\x27liquidatedCollateral / tokensOutsanding\x27) was " ++
  collateralizationString ++
  "%, using " ++
  (match price with
   | some p => R.formatDecimalString p
   | none => R.formatDecimalUndefined) ++
  " as the estimated price at liquidation time. With a collateralization requirement of " ++
  R.formatDecimalString crRequirementString ++
  "%, this liquidation would be disputable at a price below " ++
  maxPriceToBeDisputableString ++
  ". tx: " ++
  R.createEtherscanLinkMarkdown event.transactionHash props.networkId

/-! ## Theorems -/

/-- C5 -- `calculatePositionCRPercent` is the exact integer formula
`(collateral * 1e18 * 1e18) / (tokensOutstanding * price) * 100` (each multiplication
before the division it feeds, one truncating division), and at
collateral = 2000e18, tokensOutstanding = 1000e18, price = 1e18 it returns exactly
200e18. -/
theorem calculatePositionCRPercent_exact :
    (∀ collateral tokensOutstanding tokenPrice : Nat,
        tokensOutstanding * tokenPrice ≠ 0 →
        calculatePositionCRPercent collateral tokensOutstanding tokenPrice =
          .ok (collateral * WEI * WEI / (tokensOutstanding * tokenPrice) * 100)) ∧
    calculatePositionCRPercent (2000 * WEI) (1000 * WEI) WEI = .ok (200 * WEI) := by
  constructor
  · intro collateral tokensOutstanding tokenPrice h
    simp [calculatePositionCRPercent, bnDiv, h]
  · rfl

/-- Witness for C5: the general formula applied at a concrete input. -/
theorem calculatePositionCRPercent_exact_witness :
    calculatePositionCRPercent 6 2 1 = .ok (6 * WEI * WEI / (2 * 1) * 100) :=
  calculatePositionCRPercent_exact.1 6 2 1 (by decide)

/-- C6 -- `calculateDisputablePrice` is the exact integer formula
`(liquidatedCollateral * 1e18 / liquidatedTokens) * 1e18 / crRequirement` (two
truncating divisions in that order), and at crRequirement = 1.2e18,
liquidatedCollateral = 1200e18, liquidatedTokens = 1000e18 it returns exactly 1e18. -/
theorem calculateDisputablePrice_exact :
    (∀ crRequirement liquidatedCollateral liquidatedTokens : Nat,
        liquidatedTokens ≠ 0 → crRequirement ≠ 0 →
        calculateDisputablePrice crRequirement liquidatedCollateral liquidatedTokens =
          .ok (liquidatedCollateral * WEI / liquidatedTokens * WEI / crRequirement)) ∧
    calculateDisputablePrice (12 * 10 ^ 17) (1200 * WEI) (1000 * WEI) = .ok WEI := by
  constructor
  · intro crRequirement liquidatedCollateral liquidatedTokens ht hc
    simp [calculateDisputablePrice, bnDiv, ht, hc]
  · rfl

/-- Witness for C6: the general formula applied at a concrete input. -/
theorem calculateDisputablePrice_exact_witness :
    calculateDisputablePrice 3 10 2 = .ok (10 * WEI / 2 * WEI / 3) :=
  calculateDisputablePrice_exact.1 3 10 2 (by decide) (by decide)

/-- C7 -- both fixed-point helpers fail with the explicit division-by-zero error
(never a silent infinity) whenever the relevant denominator is zero:
`calculatePositionCRPercent` when `tokensOutstanding * price = 0` (in particular when
`tokensOutstanding = 0`), `calculateDisputablePrice` when `liquidatedTokens = 0` or
`crRequirement = 0`. -/
theorem zero_denominator_rejection :
    (∀ collateral tokenPrice : Nat,
        calculatePositionCRPercent collateral 0 tokenPrice = .error .divisionByZero) ∧
    (∀ collateral tokensOutstanding tokenPrice : Nat,
        tokensOutstanding * tokenPrice = 0 →
        calculatePositionCRPercent collateral tokensOutstanding tokenPrice =
          .error .divisionByZero) ∧
    (∀ crRequirement liquidatedCollateral : Nat,
        calculateDisputablePrice crRequirement liquidatedCollateral 0 =
          .error .divisionByZero) ∧
    (∀ liquidatedCollateral liquidatedTokens : Nat,
        calculateDisputablePrice 0 liquidatedCollateral liquidatedTokens =
          .error .divisionByZero) := by
  refine ⟨fun collateral tokenPrice => by simp [calculatePositionCRPercent, bnDiv],
    fun collateral tokensOutstanding tokenPrice h => by
      simp [calculatePositionCRPercent, bnDiv, h],
    fun crRequirement liquidatedCollateral => by simp [calculateDisputablePrice, bnDiv],
    fun liquidatedCollateral liquidatedTokens => ?_⟩
  by_cases ht : liquidatedTokens = 0
  · simp [calculateDisputablePrice, bnDiv, ht]
  · simp [calculateDisputablePrice, bnDiv, ht]

/-- Witness for C7: the zero-denominator cases at concrete inputs. -/
theorem zero_denominator_rejection_witness :
    calculatePositionCRPercent 5 0 3 = .error .divisionByZero ∧
    calculatePositionCRPercent 5 4 0 = .error .divisionByZero ∧
    calculateDisputablePrice 7 5 0 = .error .divisionByZero ∧
    calculateDisputablePrice 0 5 7 = .error .divisionByZero :=
  ⟨zero_denominator_rejection.1 5 3,
   zero_denominator_rejection.2.1 5 4 0 (by decide),
   zero_denominator_rejection.2.2.1 7 5,
   zero_denominator_rejection.2.2.2 5 7⟩

/-! ## Watermark lemmas -/

theorem getLastSeen_cons_cons {α : Type} [HasBlockNumber α] (x y : α) (t : List α) :
    getLastSeenBlockNumber (x :: y :: t) = getLastSeenBlockNumber (y :: t) := by
  simp [getLastSeenBlockNumber, List.getLast?_cons_cons]

theorem getLastSeen_mem {α : Type} [HasBlockNumber α] {l : List α} (h : l ≠ []) :
    ∃ e ∈ l, getLastSeenBlockNumber l = bnum e := by
  refine ⟨l.getLast h, List.getLast_mem h, ?_⟩
  simp [getLastSeenBlockNumber, List.getLast?_eq_getLast_of_ne_nil h]

theorem bnum_le_getLastSeen_of_mem {α : Type} [HasBlockNumber α] :
    ∀ {l : List α}, SortedByBlock l → ∀ {e : α}, e ∈ l → bnum e ≤ getLastSeenBlockNumber l
  | [], _, _, he => absurd he (List.not_mem_nil _)
  | [x], _, e, he => by
      rcases List.mem_singleton.mp he with rfl
      exact le_of_eq rfl
  | x :: y :: t, hs, e, he => by
      rw [getLastSeen_cons_cons]
      obtain ⟨hx, hs'⟩ := List.pairwise_cons.mp hs
      rcases List.mem_cons.mp he with rfl | he'
      · obtain ⟨z, hz, hzeq⟩ := getLastSeen_mem (l := y :: t) (by simp)
        rw [hzeq]
        exact hx z hz
      · exact bnum_le_getLastSeen_of_mem hs' he'

theorem mem_newEvents {α : Type} [HasBlockNumber α] {l : List α} {w : Nat} {e : α} :
    e ∈ newEvents l w ↔ e ∈ l ∧ w < bnum e := by
  simp [newEvents]

theorem getLastSeen_le_of_cross {α : Type} [HasBlockNumber α] {l l' : List α}
    (h : ∀ a ∈ l, ∀ b ∈ l', bnum a ≤ bnum b) (hl : l ≠ []) (hl' : l' ≠ []) :
    getLastSeenBlockNumber l ≤ getLastSeenBlockNumber l' := by
  obtain ⟨z, hz, hzeq⟩ := getLastSeen_mem hl
  obtain ⟨z', hz', hzeq'⟩ := getLastSeen_mem hl'
  rw [hzeq, hzeq']
  exact h z hz z' hz'

/-- Every event alerted anywhere in a run whose fetches are non-empty and ordered has
a block number above the starting watermark, provided the starting watermark is below
the tail of the first fetch. -/
theorem runAlerts_lower_bound {α : Type} [HasBlockNumber α] :
    ∀ (fetches : List (List α)) (w : Nat),
      (∀ l ∈ fetches, l ≠ []) → FetchesOrdered fetches →
      (∀ l ∈ fetches.head?, w ≤ getLastSeenBlockNumber l) →
      ∀ B ∈ runAlerts fetches w, ∀ e ∈ B, w < bnum e
  | [], _, _, _, _ => by simp [runAlerts]
  | latest :: rest, w, hne, hord, hw => by
      intro B hB e heB
      obtain ⟨hhead, hord'⟩ := List.chain'_cons'.mp hord
      rcases List.mem_cons.mp hB with rfl | hB'
      · exact (mem_newEvents.mp heB).2
      · have hwlatest : w ≤ getLastSeenBlockNumber latest := hw latest (by simp)
        have hrec : ∀ l ∈ rest.head?,
            getLastSeenBlockNumber latest ≤ getLastSeenBlockNumber l := by
          intro l hl
          exact getLastSeen_le_of_cross (hhead l hl) (hne latest (by simp))
            (hne l (List.mem_cons_of_mem _ (List.mem_of_mem_head? hl)))
        have := runAlerts_lower_bound rest (getLastSeenBlockNumber latest)
          (fun l hl => hne l (List.mem_cons_of_mem _ hl)) hord' hrec B hB' e heB
        exact lt_of_le_of_lt hwlatest this

/-- Across a run with sorted, ordered, non-empty fetches, the alert batches are
pairwise disjoint: no event is alerted in two different passes. -/
theorem runAlerts_pairwise {α : Type} [HasBlockNumber α] :
    ∀ (fetches : List (List α)) (w : Nat),
      (∀ l ∈ fetches, SortedByBlock l) → FetchesOrdered fetches →
      (∀ l ∈ fetches, l ≠ []) →
      (runAlerts fetches w).Pairwise (fun A B => ∀ e ∈ A, e ∉ B)
  | [], _, _, _, _ => by simp [runAlerts]
  | latest :: rest, w, hs, hord, hne => by
      obtain ⟨hhead, hord'⟩ := List.chain'_cons'.mp hord
      refine List.pairwise_cons.mpr ⟨?_, runAlerts_pairwise rest _
        (fun l hl => hs l (List.mem_cons_of_mem _ hl)) hord'
        (fun l hl => hne l (List.mem_cons_of_mem _ hl))⟩
      intro B hB e heA heB
      have h1 : bnum e ≤ getLastSeenBlockNumber latest :=
        bnum_le_getLastSeen_of_mem (hs latest (by simp)) (mem_newEvents.mp heA).1
      have hrec : ∀ l ∈ rest.head?,
          getLastSeenBlockNumber latest ≤ getLastSeenBlockNumber l := by
        intro l hl
        exact getLastSeen_le_of_cross (hhead l hl) (hne latest (by simp))
          (hne l (List.mem_cons_of_mem _ (List.mem_of_mem_head? hl)))
      have h2 := runAlerts_lower_bound rest (getLastSeenBlockNumber latest)
        (fun l hl => hne l (List.mem_cons_of_mem _ hl)) hord' hrec B hB e heB
      exact absurd h2 (not_lt.mpr h1)

/-- A sorted list refetched against the watermark taken from its own tail yields no
new events. -/
theorem refetch_no_alerts {α : Type} [HasBlockNumber α] (latest : List α)
    (hs : SortedByBlock latest) :
    newEvents latest (getLastSeenBlockNumber latest) = [] := by
  rw [newEvents, List.filter_eq_nil_iff]
  intro e he
  simp only [decide_eq_true_eq, not_lt]
  exact bnum_le_getLastSeen_of_mem hs he

/-- C1 (amended) -- for every sequence of fetch results in which block numbers are
non-decreasing within each list and across successive fetches *and every fetched list
is non-empty*, repeated invocations of a check-method (whose per-pass behaviour is:
alert exactly `newEvents latest watermark`, then set the watermark to
`getLastSeenBlockNumber latest`) never alert the same event in two different passes;
in particular, re-invoking with an unchanged non-decreasing fetch list emits no
alerts.  The non-emptiness proviso is forced by the counterexample
`duplicate_alert_on_empty_refetch`: an empty fetch resets the watermark to 0. -/
theorem no_duplicate_alerts :
    (∀ {α : Type} [HasBlockNumber α] (fetches : List (List α)) (w : Nat),
        (∀ l ∈ fetches, SortedByBlock l) → FetchesOrdered fetches →
        (∀ l ∈ fetches, l ≠ []) →
        (runAlerts fetches w).Pairwise (fun A B => ∀ e ∈ A, e ∉ B)) ∧
    (∀ {α : Type} [HasBlockNumber α] (latest : List α),
        SortedByBlock latest →
        newEvents latest (getLastSeenBlockNumber latest) = []) :=
  ⟨fun fetches w hs hord hne => runAlerts_pairwise fetches w hs hord hne,
   fun latest hs => refetch_no_alerts latest hs⟩

/-- Witness for C1: a concrete two-pass run with growing history alerts disjoint
batches, and refetching an unchanged list alerts nothing. -/
theorem no_duplicate_alerts_witness :
    (runAlerts [[sponsorEventAt 10], [sponsorEventAt 10, sponsorEventAt 15]] 0).Pairwise
      (fun A B => ∀ e ∈ A, e ∉ B) ∧
    newEvents [sponsorEventAt 10, sponsorEventAt 15]
      (getLastSeenBlockNumber [sponsorEventAt 10, sponsorEventAt 15]) = [] :=
  ⟨no_duplicate_alerts.1 _ 0 (by decide)
      (by simp only [List.chain'_cons, List.chain'_singleton, and_true]; decide)
      (by decide),
   no_duplicate_alerts.2 _ (by decide)⟩

/-- C1 counterexample: the fetch sequence [[block 5], [], [block 5]] has
non-decreasing block numbers within every list and across successive fetches (also
when read as: the concatenation of all fetches is non-decreasing), yet the block-5
event is alerted in both the first and the third invocation, because the middle
empty fetch resets the watermark to 0 (lines 74-79 return 0 for an empty array). -/
theorem duplicate_alert_on_empty_refetch :
    (∀ l ∈ [[sponsorEventAt 5], [], [sponsorEventAt 5]], SortedByBlock l) ∧
    FetchesOrdered [[sponsorEventAt 5], [], [sponsorEventAt 5]] ∧
    SortedByBlock ([[sponsorEventAt 5], [], [sponsorEventAt 5]] :
      List (List SponsorEvent)).flatten ∧
    ¬ (runAlerts [[sponsorEventAt 5], [], [sponsorEventAt 5]] 0).Pairwise
        (fun A B => ∀ e ∈ A, e ∉ B) :=
  ⟨by decide,
   by simp only [List.chain'_cons, List.chain'_singleton, and_true]; decide,
   by decide,
   by decide⟩

/-! ## Maximum-block lemmas -/

theorem bnum_le_maxBlock {α : Type} [HasBlockNumber α] {l : List α} {e : α} (he : e ∈ l) :
    bnum e ≤ maxBlock l := by
  induction l with
  | nil => cases he
  | cons x t ih =>
    rcases List.mem_cons.mp he with rfl | h'
    · exact le_max_left _ _
    · exact le_trans (ih h') (le_max_right _ _)

theorem maxBlock_le {α : Type} [HasBlockNumber α] {l : List α} {w : Nat}
    (h : ∀ e ∈ l, bnum e ≤ w) : maxBlock l ≤ w := by
  induction l with
  | nil => exact Nat.zero_le w
  | cons x t ih => exact max_le (h x (by simp)) (ih fun e he => h e (by simp [he]))

theorem maxBlock_append {α : Type} [HasBlockNumber α] (l₁ l₂ : List α) :
    maxBlock (l₁ ++ l₂) = max (maxBlock l₁) (maxBlock l₂) := by
  induction l₁ with
  | nil => simp [maxBlock]
  | cons x t ih =>
    show max (bnum x) (maxBlock (t ++ l₂)) = max (max (bnum x) (maxBlock t)) (maxBlock l₂)
    rw [ih, max_assoc]

theorem getLastSeen_eq_maxBlock {α : Type} [HasBlockNumber α] {l : List α}
    (hs : SortedByBlock l) (hne : l ≠ []) :
    getLastSeenBlockNumber l = maxBlock l := by
  obtain ⟨z, hz, hzeq⟩ := getLastSeen_mem hne
  refine le_antisymm ?_ (maxBlock_le fun e he => bnum_le_getLastSeen_of_mem hs he)
  rw [hzeq]
  exact bnum_le_maxBlock hz

/-- For a non-empty run with sorted, ordered, non-empty fetches, the final watermark
is the maximum block number over every event ever returned. -/
theorem runWatermark_eq_maxBlock {α : Type} [HasBlockNumber α] :
    ∀ (fetches : List (List α)) (w : Nat),
      (∀ l ∈ fetches, SortedByBlock l) → FetchesOrdered fetches →
      (∀ l ∈ fetches, l ≠ []) → fetches ≠ [] →
      runWatermark fetches w = maxBlock fetches.flatten
  | [], _, _, _, _, hnil => absurd rfl hnil
  | [latest], w, hs, _, hne, _ => by
      show getLastSeenBlockNumber latest = maxBlock ([latest] : List (List α)).flatten
      rw [getLastSeen_eq_maxBlock (hs latest (by simp)) (hne latest (by simp))]
      simp
  | latest :: next :: rest, w, hs, hord, hne, _ => by
      obtain ⟨hhead, hord'⟩ := List.chain'_cons'.mp hord
      have ih := runWatermark_eq_maxBlock (next :: rest) (getLastSeenBlockNumber latest)
        (fun l hl => hs l (List.mem_cons_of_mem _ hl)) hord'
        (fun l hl => hne l (List.mem_cons_of_mem _ hl)) (by simp)
      show runWatermark (next :: rest) (getLastSeenBlockNumber latest) =
        maxBlock ((latest :: next :: rest) : List (List α)).flatten
      rw [ih]
      obtain ⟨b0, hb0⟩ := List.exists_mem_of_ne_nil next (hne next (by simp))
      have hcross : ∀ a ∈ latest, ∀ b ∈ next, bnum a ≤ bnum b := hhead next (by simp)
      have hle : maxBlock latest ≤ maxBlock ((next :: rest) : List (List α)).flatten := by
        refine maxBlock_le fun e he => le_trans (hcross e he b0 hb0) ?_
        exact bnum_le_maxBlock (List.mem_flatten.mpr ⟨next, by simp, hb0⟩)
      have hflat : ((latest :: next :: rest) : List (List α)).flatten =
          latest ++ ((next :: rest) : List (List α)).flatten := List.flatten_cons ..
      rw [hflat, maxBlock_append, max_eq_right hle]

/-- C3 (amended) -- provided every fetched list is non-empty with non-decreasing
block numbers and successive fetches never return a block number below an earlier
one, then after every number of invocations the watermark equals the maximum block
number over all events ever returned, and it never decreases from one invocation to
the next.  The provisos are forced by `watermark_not_max_on_empty_fetch`. -/
theorem watermark_equals_max_of_ordered_nonempty_fetches
    {α : Type} [HasBlockNumber α] (fetches : List (List α))
    (hs : ∀ l ∈ fetches, SortedByBlock l) (hord : FetchesOrdered fetches)
    (hne : ∀ l ∈ fetches, l ≠ []) :
    (∀ k : Nat, runWatermark (fetches.take k) 0 = maxBlock (fetches.take k).flatten) ∧
    (∀ k : Nat, runWatermark (fetches.take k) 0 ≤ runWatermark (fetches.take (k + 1)) 0) := by
  have key : ∀ k, runWatermark (fetches.take k) 0 = maxBlock (fetches.take k).flatten := by
    intro k
    rcases eq_or_ne (fetches.take k) [] with h | h
    · rw [h]; rfl
    · exact runWatermark_eq_maxBlock _ 0 (fun l hl => hs l (List.take_subset _ _ hl))
        (hord.take k) (fun l hl => hne l (List.take_subset _ _ hl)) h
  refine ⟨key, fun k => ?_⟩
  rw [key k, key (k + 1), List.take_succ, List.flatten_append, maxBlock_append]
  exact le_max_left _ _

/-- Witness for C3: a concrete two-pass run with growing history. -/
theorem watermark_equals_max_witness :
    runWatermark ([[sponsorEventAt 10], [sponsorEventAt 10, sponsorEventAt 15]].take 2) 0 =
      maxBlock ([[sponsorEventAt 10],
        [sponsorEventAt 10, sponsorEventAt 15]].take 2).flatten ∧
    runWatermark ([[sponsorEventAt 10], [sponsorEventAt 10, sponsorEventAt 15]].take 1) 0 ≤
      runWatermark ([[sponsorEventAt 10], [sponsorEventAt 10, sponsorEventAt 15]].take 2) 0 :=
  ⟨(watermark_equals_max_of_ordered_nonempty_fetches _ (by decide)
      (by simp only [List.chain'_cons, List.chain'_singleton, and_true]; decide)
      (by decide)).1 2,
   (watermark_equals_max_of_ordered_nonempty_fetches _ (by decide)
      (by simp only [List.chain'_cons, List.chain'_singleton, and_true]; decide)
      (by decide)).2 1⟩

/-- C3 counterexample: with fetches [[block 5], []] the watermark after the second
invocation is 0 while the maximum block number ever returned is 5, and the watermark
decreased from 5 (after the first invocation) to 0. -/
theorem watermark_not_max_on_empty_fetch :
    runWatermark [[sponsorEventAt 5], []] 0 = 0 ∧
    maxBlock ([[sponsorEventAt 5], []] : List (List SponsorEvent)).flatten = 5 ∧
    runWatermark [[sponsorEventAt 5]] 0 = 5 :=
  ⟨rfl, rfl, rfl⟩

/-- C2 (amended) -- when the fetched event list is empty, every check-method sets its
category's watermark to 0 (the empty-array branch of `getLastSeenBlockNumber`), so
the watermark is preserved only when its prior value was already 0. -/
theorem watermark_zero_on_empty_fetch :
    (∀ (R : Renderers) (m : ContractMonitor),
        (checkForNewSponsors R m []).2.lastNewSponsorBlockNumber = 0) ∧
    (∀ (R : Renderers) (env : LiquidationEnv) (m : ContractMonitor),
        (checkForNewLiquidations R env m []).2.1.lastLiquidationBlockNumber = 0) ∧
    (∀ (R : Renderers) (m : ContractMonitor),
        (checkForNewDisputeEvents R m []).2.lastDisputeBlockNumber = 0) ∧
    (∀ (R : Renderers) (m : ContractMonitor),
        (checkForNewDisputeSettlementEvents R m []).2.lastDisputeSettlementBlockNumber = 0) :=
  ⟨fun _ _ => rfl, fun _ _ _ => rfl, fun _ _ => rfl, fun _ _ => rfl⟩

/-- C2 counterexample: with the sponsor watermark at 7 and an empty fetched list,
the watermark after the pass is 0, not its prior value 7. -/
theorem empty_fetch_resets_watermark :
    (checkForNewSponsors trivialRenderers monitorSponsorWm7 []).2.lastNewSponsorBlockNumber
      = 0 ∧
    monitorSponsorWm7.lastNewSponsorBlockNumber = 7 :=
  ⟨rfl, rfl⟩

/-! ## Liquidation pass lemmas -/

/-- An absent historical price takes the else-branch of lines 160-169: warn record
plus the info alert with both derived fields `"[Invalid]"`; nothing throws. -/
theorem processLiquidationEvent_price_none (R : Renderers) (env : LiquidationEnv)
    (m : ContractMonitor) (e : LiquidationEvent)
    (h : env.getHistoricalPrice (env.liquidationTime e.sponsor e.liquidationId) = none) :
    processLiquidationEvent R env m e =
      .ok [priceMissWarnRecord,
           liquidationAlertRecord R m e none "[Invalid]" "[Invalid]"
             (env.collateralRequirement * 100)] := by
  simp only [processLiquidationEvent, h]

/-- When every present price comes with non-zero denominators, a single event never
throws. -/
theorem processLiquidationEvent_isOk (R : Renderers) (env : LiquidationEnv)
    (m : ContractMonitor) (e : LiquidationEvent)
    (h : ∀ p, env.getHistoricalPrice (env.liquidationTime e.sponsor e.liquidationId) = some p →
        e.tokensOutstanding * p ≠ 0 ∧ e.tokensOutstanding ≠ 0 ∧
          env.collateralRequirement ≠ 0) :
    ∃ logs, processLiquidationEvent R env m e = .ok logs := by
  rcases hp : env.getHistoricalPrice (env.liquidationTime e.sponsor e.liquidationId)
    with _ | p
  · exact ⟨_, processLiquidationEvent_price_none R env m e hp⟩
  · obtain ⟨h1, h2, h3⟩ := h p hp
    refine ⟨[liquidationAlertRecord R m e (some p)
      (R.formatDecimalString
        (e.liquidatedCollateral * WEI * WEI / (e.tokensOutstanding * p) * 100))
      (R.formatDecimalString
        (e.liquidatedCollateral * WEI / e.tokensOutstanding * WEI /
          env.collateralRequirement))
      (env.collateralRequirement * 100)], ?_⟩
    simp only [processLiquidationEvent, hp, calculatePositionCRPercent,
      calculateDisputablePrice, bnDiv, h1, h2, h3, if_false, if_neg]

/-- A loop in which no event throws completes with the concatenation of every
event's records. -/
theorem processLiquidationEvents_completed (R : Renderers) (env : LiquidationEnv)
    (m : ContractMonitor) :
    ∀ (l : List LiquidationEvent),
      (∀ e ∈ l, ∃ logs, processLiquidationEvent R env m e = .ok logs) →
      processLiquidationEvents R env m l = .completed (passLogs R env m l)
  | [], _ => rfl
  | e :: rest, h => by
      obtain ⟨logs, hlogs⟩ := h e (by simp)
      have ih := processLiquidationEvents_completed R env m rest
        (fun x hx => h x (by simp [hx]))
      simp only [processLiquidationEvents, hlogs, ih, passLogs, eventLogs, List.map_cons,
        List.flatten_cons]

/-- A loop whose prefix is throw-free and whose next event throws aborts with exactly
the prefix's records. -/
theorem processLiquidationEvents_aborted (R : Renderers) (env : LiquidationEnv)
    (m : ContractMonitor) (e : LiquidationEvent) (err : BNError)
    (l₂ : List LiquidationEvent)
    (herr : processLiquidationEvent R env m e = .error err) :
    ∀ (l₁ : List LiquidationEvent),
      (∀ x ∈ l₁, ∃ logs, processLiquidationEvent R env m x = .ok logs) →
      processLiquidationEvents R env m (l₁ ++ e :: l₂) =
        .aborted (passLogs R env m l₁) err
  | [], _ => by
      simp only [List.nil_append, processLiquidationEvents, herr, passLogs, List.map_nil,
        List.flatten_nil]
  | x :: rest, h => by
      obtain ⟨logs, hlogs⟩ := h x (by simp)
      have ih := processLiquidationEvents_aborted R env m e err l₂ herr rest
        (fun y hy => h y (by simp [hy]))
      simp only [List.cons_append, processLiquidationEvents, hlogs, List.append_eq, ih,
        passLogs, eventLogs, List.map_cons, List.flatten_cons]

/-- C4 -- in a pass where no event divides by zero (the spec's normal operation:
positive token amounts), every new liquidation event whose historical price lookup
returns absent still gets its info alert, with the literal `"[Invalid]"` as both the
collateralization field and the disputable-price field, a warn record is additionally
emitted, no rejection occurs, and the liquidation watermark is still advanced to the
tail of the full fetched list at the end of the pass. -/
theorem graceful_price_miss (R : Renderers) (env : LiquidationEnv) (m : ContractMonitor)
    (latest : List LiquidationEvent)
    (H : ∀ e ∈ newEvents latest m.lastLiquidationBlockNumber, ∀ p,
        env.getHistoricalPrice (env.liquidationTime e.sponsor e.liquidationId) = some p →
        e.tokensOutstanding * p ≠ 0 ∧ e.tokensOutstanding ≠ 0 ∧
          env.collateralRequirement ≠ 0) :
    (checkForNewLiquidations R env m latest).2.2 = none ∧
    (checkForNewLiquidations R env m latest).2.1.lastLiquidationBlockNumber =
      getLastSeenBlockNumber latest ∧
    ∀ e ∈ newEvents latest m.lastLiquidationBlockNumber,
      env.getHistoricalPrice (env.liquidationTime e.sponsor e.liquidationId) = none →
      priceMissWarnRecord ∈ (checkForNewLiquidations R env m latest).1 ∧
      liquidationAlertRecord R m e none "[Invalid]" "[Invalid]"
          (env.collateralRequirement * 100) ∈ (checkForNewLiquidations R env m latest).1 := by
  have hcomp := processLiquidationEvents_completed R env m
    (newEvents latest m.lastLiquidationBlockNumber)
    (fun e he => processLiquidationEvent_isOk R env m e (H e he))
  have hcheck : checkForNewLiquidations R env m latest =
      (liquidationDebugRecord ::
        passLogs R env m (newEvents latest m.lastLiquidationBlockNumber),
       { m with lastLiquidationBlockNumber := getLastSeenBlockNumber latest }, none) := by
    simp only [checkForNewLiquidations, hcomp]
  refine ⟨by rw [hcheck], by rw [hcheck], ?_⟩
  intro e he hnone
  have hev : eventLogs R env m e =
      [priceMissWarnRecord,
       liquidationAlertRecord R m e none "[Invalid]" "[Invalid]"
         (env.collateralRequirement * 100)] := by
    simp only [eventLogs, processLiquidationEvent_price_none R env m e hnone]
  have hsub : ∀ r ∈ eventLogs R env m e,
      r ∈ (checkForNewLiquidations R env m latest).1 := by
    intro r hr
    rw [hcheck]
    exact List.mem_cons_of_mem _
      (List.mem_flatten.mpr ⟨eventLogs R env m e, List.mem_map_of_mem _ he, hr⟩)
  exact ⟨hsub _ (by rw [hev]; simp), hsub _ (by rw [hev]; simp)⟩

/-- Witness for C4: a concrete pass over one liquidation event whose price lookup
misses. -/
theorem graceful_price_miss_witness :
    (checkForNewLiquidations trivialRenderers envNoPrice baseMonitor [liqEventAt 5]).2.2 =
      none ∧
    (checkForNewLiquidations trivialRenderers envNoPrice baseMonitor
        [liqEventAt 5]).2.1.lastLiquidationBlockNumber =
      getLastSeenBlockNumber [liqEventAt 5] ∧
    priceMissWarnRecord ∈
      (checkForNewLiquidations trivialRenderers envNoPrice baseMonitor [liqEventAt 5]).1 ∧
    liquidationAlertRecord trivialRenderers baseMonitor (liqEventAt 5) none "[Invalid]"
        "[Invalid]" (envNoPrice.collateralRequirement * 100) ∈
      (checkForNewLiquidations trivialRenderers envNoPrice baseMonitor [liqEventAt 5]).1 := by
  have h := graceful_price_miss trivialRenderers envNoPrice baseMonitor [liqEventAt 5]
    (fun e he p hp => by simp [envNoPrice] at hp)
  have h3 := h.2.2 (liqEventAt 5) (by decide) rfl
  exact ⟨h.1, h.2.1, h3.1, h3.2⟩

/-- C8 counterexample: a pass over the single new event `liqZeroTokens` (price
present, `tokensOutstanding = 0`) divides by zero; the code has no try/catch, so the
pass rejects with only the debug record emitted -- no warn record, no `"[Invalid]"`
alert, the remaining loop body is skipped -- and the monitor state (the liquidation
watermark, still 0) is returned unchanged instead of advancing to block 5. -/
theorem arithmetic_error_aborts_pass :
    checkForNewLiquidations trivialRenderers envUnitPrice baseMonitor [liqZeroTokens] =
      ([liquidationDebugRecord], baseMonitor, some .divisionByZero) ∧
    getLastSeenBlockNumber [liqZeroTokens] = 5 ∧
    baseMonitor.lastLiquidationBlockNumber = 0 :=
  ⟨rfl, rfl, rfl⟩

/-- C8 (amended) -- if a division by zero occurs while computing the derived metrics
for a new liquidation event, the exception propagates out of
`checkForNewLiquidations`: no warn record and no alert are emitted for that event,
the events after it in the pass are not processed (the emitted records are exactly
the debug record plus those of the events before it), and the liquidation watermark
is not advanced (the monitor state is returned unchanged); the rejection is reported
to the caller. -/
theorem arithmetic_error_propagates (R : Renderers) (env : LiquidationEnv)
    (m : ContractMonitor) (latest l₁ l₂ : List LiquidationEvent)
    (e : LiquidationEvent) (err : BNError)
    (hsplit : newEvents latest m.lastLiquidationBlockNumber = l₁ ++ e :: l₂)
    (hok : ∀ x ∈ l₁, ∃ logs, processLiquidationEvent R env m x = .ok logs)
    (herr : processLiquidationEvent R env m e = .error err) :
    checkForNewLiquidations R env m latest =
      (liquidationDebugRecord :: passLogs R env m l₁, m, some err) := by
  have habort := processLiquidationEvents_aborted R env m e err l₂ herr l₁ hok
  simp only [checkForNewLiquidations, hsplit, habort]

/-- Witness for C8 (amended): the concrete aborting pass. -/
theorem arithmetic_error_propagates_witness :
    checkForNewLiquidations trivialRenderers envUnitPrice baseMonitor [liqZeroTokens] =
      (liquidationDebugRecord :: passLogs trivialRenderers envUnitPrice baseMonitor [],
       baseMonitor, some .divisionByZero) :=
  arithmetic_error_propagates trivialRenderers envUnitPrice baseMonitor
    [liqZeroTokens] [] [] liqZeroTokens .divisionByZero rfl
    (fun x hx => absurd hx (List.not_mem_nil x)) rfl


/-! ## Monitored-set independence lemmas (C9) -/

theorem forall₂_append_pair {α β : Type} {r : α → β → Prop} :
    ∀ {l₁ : List α} {l₂ : List β} {l₃ : List α} {l₄ : List β},
      List.Forall₂ r l₁ l₂ → List.Forall₂ r l₃ l₄ → List.Forall₂ r (l₁ ++ l₃) (l₂ ++ l₄)
  | _, _, _, _, List.Forall₂.nil, h' => h'
  | _, _, _, _, List.Forall₂.cons h t, h' => List.Forall₂.cons h (forall₂_append_pair t h')

/-- Changing only the monitored-address sets changes one liquidation event's records
at most in the monitored-liquidator annotation: both runs throw the same error or
both emit the same records up to the membership boolean. -/
theorem processLiquidationEvent_sets (R : Renderers) (env : LiquidationEnv)
    (m₁ m₂ : ContractMonitor) (hE : m₂.empProps = m₁.empProps)
    (hS : m₂.syntheticCurrencySymbol = m₁.syntheticCurrencySymbol)
    (e : LiquidationEvent) :
    (∃ err, processLiquidationEvent R env m₁ e = .error err ∧
        processLiquidationEvent R env m₂ e = .error err) ∨
    (∃ l₁ l₂, processLiquidationEvent R env m₁ e = .ok l₁ ∧
        processLiquidationEvent R env m₂ e = .ok l₂ ∧
        List.Forall₂ (liqAlertUpToFlag R m₁.empProps m₁.syntheticCurrencySymbol) l₁ l₂) := by
  rcases hp : env.getHistoricalPrice (env.liquidationTime e.sponsor e.liquidationId)
    with _ | p
  · have e₁ := processLiquidationEvent_price_none R env m₁ e hp
    have e₂ := processLiquidationEvent_price_none R env m₂ e hp
    have hrec : liquidationAlertRecord R m₂ e none "[Invalid]" "[Invalid]"
        (env.collateralRequirement * 100) =
        ⟨.info, "Liquidation Alert 🧙‍♂️!",
          liquidationMrkdwn R m₁.empProps m₁.syntheticCurrencySymbol
            (jsIndexOf m₂.monitoredLiquidators e.liquidator != -1) e none "[Invalid]"
            "[Invalid]" (env.collateralRequirement * 100)⟩ := by
      simp only [liquidationAlertRecord, hE, hS]
    refine Or.inr ⟨_, _, e₁, e₂, List.Forall₂.cons ⟨rfl, rfl, Or.inl rfl⟩
      (List.Forall₂.cons ⟨rfl, rfl, Or.inr
        ⟨jsIndexOf m₁.monitoredLiquidators e.liquidator != -1,
         jsIndexOf m₂.monitoredLiquidators e.liquidator != -1,
         e, none, "[Invalid]", "[Invalid]", env.collateralRequirement * 100,
         rfl, hrec⟩⟩ List.Forall₂.nil)⟩
  · rcases hcr : calculatePositionCRPercent e.liquidatedCollateral e.tokensOutstanding p
      with err | cr
    · refine Or.inl ⟨err, ?_, ?_⟩ <;> simp only [processLiquidationEvent, hp, hcr]
    · rcases hdp : calculateDisputablePrice env.collateralRequirement e.liquidatedCollateral
        e.tokensOutstanding with err | dp
      · refine Or.inl ⟨err, ?_, ?_⟩ <;> simp only [processLiquidationEvent, hp, hcr, hdp]
      · have e₁ : processLiquidationEvent R env m₁ e =
            .ok [liquidationAlertRecord R m₁ e (some p) (R.formatDecimalString cr)
              (R.formatDecimalString dp) (env.collateralRequirement * 100)] := by
          simp only [processLiquidationEvent, hp, hcr, hdp]
        have e₂ : processLiquidationEvent R env m₂ e =
            .ok [liquidationAlertRecord R m₂ e (some p) (R.formatDecimalString cr)
              (R.formatDecimalString dp) (env.collateralRequirement * 100)] := by
          simp only [processLiquidationEvent, hp, hcr, hdp]
        have hrec : liquidationAlertRecord R m₂ e (some p) (R.formatDecimalString cr)
            (R.formatDecimalString dp) (env.collateralRequirement * 100) =
            ⟨.info, "Liquidation Alert 🧙‍♂️!",
              liquidationMrkdwn R m₁.empProps m₁.syntheticCurrencySymbol
                (jsIndexOf m₂.monitoredLiquidators e.liquidator != -1) e (some p)
                (R.formatDecimalString cr) (R.formatDecimalString dp)
                (env.collateralRequirement * 100)⟩ := by
          simp only [liquidationAlertRecord, hE, hS]
        refine Or.inr ⟨_, _, e₁, e₂, List.Forall₂.cons ⟨rfl, rfl, Or.inr
          ⟨jsIndexOf m₁.monitoredLiquidators e.liquidator != -1,
           jsIndexOf m₂.monitoredLiquidators e.liquidator != -1,
           e, some p, R.formatDecimalString cr, R.formatDecimalString dp,
           env.collateralRequirement * 100, rfl, hrec⟩⟩ List.Forall₂.nil⟩

/-- Changing only the monitored-address sets leaves the liquidation loop's outcome
unchanged up to monitored-bot annotations. -/
theorem processLiquidationEvents_sets (R : Renderers) (env : LiquidationEnv)
    (m₁ m₂ : ContractMonitor) (hE : m₂.empProps = m₁.empProps)
    (hS : m₂.syntheticCurrencySymbol = m₁.syntheticCurrencySymbol) :
    ∀ l : List LiquidationEvent,
      outcomeUpToFlag R m₁.empProps m₁.syntheticCurrencySymbol
        (processLiquidationEvents R env m₁ l) (processLiquidationEvents R env m₂ l)
  | [] => List.Forall₂.nil
  | e :: rest => by
      have ih := processLiquidationEvents_sets R env m₁ m₂ hE hS rest
      rcases processLiquidationEvent_sets R env m₁ m₂ hE hS e
        with ⟨err, h₁, h₂⟩ | ⟨l₁, l₂, h₁, h₂, hrel⟩
      · simp only [processLiquidationEvents, h₁, h₂]
        exact ⟨rfl, List.Forall₂.nil⟩
      · simp only [processLiquidationEvents, h₁, h₂]
        cases ho₁ : processLiquidationEvents R env m₁ rest with
        | completed more₁ =>
          cases ho₂ : processLiquidationEvents R env m₂ rest with
          | completed more₂ =>
            rw [ho₁, ho₂] at ih
            exact forall₂_append_pair hrel ih
          | aborted more₂ err₂ =>
            rw [ho₁, ho₂] at ih
            exact ih.elim
        | aborted more₁ err₁ =>
          cases ho₂ : processLiquidationEvents R env m₂ rest with
          | completed more₂ =>
            rw [ho₁, ho₂] at ih
            exact ih.elim
          | aborted more₂ err₂ =>
            rw [ho₁, ho₂] at ih
            exact ⟨ih.1, forall₂_append_pair hrel ih.2⟩

/-- C9 -- two runs of the same check-method that differ only in the contents of the
monitored-liquidator and monitored-disputer sets alert the same events, at the same
levels, with the same messages and the same watermark updates (and, for
liquidations, the same rejection if any); membership changes at most whether a
"(Monitored ...)" annotation appears in the alert text, never whether an alert
fires. -/
theorem monitored_sets_cosmetic_only (R : Renderers) (env : LiquidationEnv)
    (m m' : ContractMonitor) (liqs disps : List String)
    (hm : m' = { m with monitoredLiquidators := liqs, monitoredDisputers := disps })
    (latestS : List SponsorEvent) (latestL : List LiquidationEvent)
    (latestD : List DisputeEvent) (latestDS : List DisputeSettlementEvent) :
    List.Forall₂ (sponsorAlertUpToFlag R m.empProps)
      (checkForNewSponsors R m latestS).1 (checkForNewSponsors R m' latestS).1 ∧
    (checkForNewSponsors R m' latestS).2.lastNewSponsorBlockNumber =
      (checkForNewSponsors R m latestS).2.lastNewSponsorBlockNumber ∧
    List.Forall₂ (liqAlertUpToFlag R m.empProps m.syntheticCurrencySymbol)
      (checkForNewLiquidations R env m latestL).1
      (checkForNewLiquidations R env m' latestL).1 ∧
    (checkForNewLiquidations R env m' latestL).2.1.lastLiquidationBlockNumber =
      (checkForNewLiquidations R env m latestL).2.1.lastLiquidationBlockNumber ∧
    (checkForNewLiquidations R env m' latestL).2.2 =
      (checkForNewLiquidations R env m latestL).2.2 ∧
    List.Forall₂ (disputeAlertUpToFlag R m.empProps)
      (checkForNewDisputeEvents R m latestD).1 (checkForNewDisputeEvents R m' latestD).1 ∧
    (checkForNewDisputeEvents R m' latestD).2.lastDisputeBlockNumber =
      (checkForNewDisputeEvents R m latestD).2.lastDisputeBlockNumber ∧
    List.Forall₂ (settlementAlertUpToFlag R m.empProps)
      (checkForNewDisputeSettlementEvents R m latestDS).1
      (checkForNewDisputeSettlementEvents R m' latestDS).1 ∧
    (checkForNewDisputeSettlementEvents R m' latestDS).2.lastDisputeSettlementBlockNumber =
      (checkForNewDisputeSettlementEvents R m latestDS).2.lastDisputeSettlementBlockNumber := by
  subst hm
  have hliq := processLiquidationEvents_sets R env m
    { m with monitoredLiquidators := liqs, monitoredDisputers := disps } rfl rfl
    (newEvents latestL m.lastLiquidationBlockNumber)
  have hliqAll :
      List.Forall₂ (liqAlertUpToFlag R m.empProps m.syntheticCurrencySymbol)
        (checkForNewLiquidations R env m latestL).1
        (checkForNewLiquidations R env
          { m with monitoredLiquidators := liqs, monitoredDisputers := disps } latestL).1 ∧
      (checkForNewLiquidations R env
          { m with monitoredLiquidators := liqs, monitoredDisputers := disps }
          latestL).2.1.lastLiquidationBlockNumber =
        (checkForNewLiquidations R env m latestL).2.1.lastLiquidationBlockNumber ∧
      (checkForNewLiquidations R env
          { m with monitoredLiquidators := liqs, monitoredDisputers := disps } latestL).2.2 =
        (checkForNewLiquidations R env m latestL).2.2 := by
    simp only [checkForNewLiquidations]
    cases ho₁ : processLiquidationEvents R env m
        (newEvents latestL m.lastLiquidationBlockNumber) with
    | completed more₁ =>
      cases ho₂ : processLiquidationEvents R env
          { m with monitoredLiquidators := liqs, monitoredDisputers := disps }
          (newEvents latestL m.lastLiquidationBlockNumber) with
      | completed more₂ =>
        rw [ho₁, ho₂] at hliq
        exact ⟨List.Forall₂.cons ⟨rfl, rfl, Or.inl rfl⟩ hliq, rfl, rfl⟩
      | aborted more₂ err₂ =>
        rw [ho₁, ho₂] at hliq
        exact hliq.elim
    | aborted more₁ err₁ =>
      cases ho₂ : processLiquidationEvents R env
          { m with monitoredLiquidators := liqs, monitoredDisputers := disps }
          (newEvents latestL m.lastLiquidationBlockNumber) with
      | completed more₂ =>
        rw [ho₁, ho₂] at hliq
        exact hliq.elim
      | aborted more₂ err₂ =>
        rw [ho₁, ho₂] at hliq
        exact ⟨List.Forall₂.cons ⟨rfl, rfl, Or.inl rfl⟩ hliq.2, rfl, by rw [hliq.1]⟩
  refine ⟨?_, rfl, hliqAll.1, hliqAll.2.1, hliqAll.2.2, ?_, rfl, ?_, rfl⟩
  · simp only [checkForNewSponsors]
    refine List.Forall₂.cons ⟨rfl, rfl, Or.inl rfl⟩ ?_
    rw [List.forall₂_map_left_iff, List.forall₂_map_right_iff]
    exact List.forall₂_same.2 fun e he => ⟨rfl, rfl, Or.inr ⟨_, _, e, rfl, rfl⟩⟩
  · simp only [checkForNewDisputeEvents]
    refine List.Forall₂.cons ⟨rfl, rfl, Or.inl rfl⟩ ?_
    rw [List.forall₂_map_left_iff, List.forall₂_map_right_iff]
    exact List.forall₂_same.2 fun e he => ⟨rfl, rfl, Or.inr ⟨_, _, _, _, e, rfl, rfl⟩⟩
  · simp only [checkForNewDisputeSettlementEvents]
    refine List.Forall₂.cons ⟨rfl, rfl, Or.inl rfl⟩ ?_
    rw [List.forall₂_map_left_iff, List.forall₂_map_right_iff]
    exact List.forall₂_same.2 fun e he => ⟨rfl, rfl, Or.inr ⟨_, _, _, _, e, rfl, rfl⟩⟩

/-- Witness for C9: concrete runs differing only in the monitored sets. -/
theorem monitored_sets_cosmetic_only_witness :
    List.Forall₂ (sponsorAlertUpToFlag trivialRenderers baseMonitor.empProps)
      (checkForNewSponsors trivialRenderers baseMonitor [sponsorEventAt 10]).1
      (checkForNewSponsors trivialRenderers { baseMonitor with monitoredLiquidators := ["0xdead"], monitoredDisputers := ["0xother"] } [sponsorEventAt 10]).1 ∧
    (checkForNewSponsors trivialRenderers { baseMonitor with monitoredLiquidators := ["0xdead"], monitoredDisputers := ["0xother"] } [sponsorEventAt 10]).2.lastNewSponsorBlockNumber =
      (checkForNewSponsors trivialRenderers baseMonitor
        [sponsorEventAt 10]).2.lastNewSponsorBlockNumber := by
  have h := monitored_sets_cosmetic_only trivialRenderers envNoPrice baseMonitor
    { baseMonitor with monitoredLiquidators := ["0xdead"], monitoredDisputers := ["0xother"] }
    ["0xdead"] ["0xother"] rfl [sponsorEventAt 10] [] [] []
  exact ⟨h.1, h.2.1⟩

/-! ## Undefined synthetic symbol in liquidation alerts (C10) -/

theorem string_data_append (a b : String) : (a ++ b).data = a.data ++ b.data := rfl

/-- C10 -- the constructor stores the synthetic symbol only inside `this.empProps`
and never assigns the top-level property `this.syntheticCurrencySymbol` read at line
190, so that property is `undefined` (`none`); consequently the token-symbol slot of
every liquidation alert renders the JS placeholder text `"undefined"` (the message
splits around it), and the entire liquidation pass output -- records, watermark,
rejection -- is independent of the configured `syntheticCurrencySymbol`. -/
theorem liquidation_alert_symbol_undefined (cfg : ContractMonitorConfig)
    (props : EmpProps) (s : String) (R : Renderers) (env : LiquidationEnv)
    (latest : List LiquidationEvent) :
    (ContractMonitor.construct cfg props).syntheticCurrencySymbol = none ∧
    (∀ (b : Bool) (e : LiquidationEvent) (price : Option Nat) (cs mps : String) (crs : Nat),
        (liquidationMrkdwn R props
            (ContractMonitor.construct cfg props).syntheticCurrencySymbol
            b e price cs mps crs).data =
          (liqMrkdwnHead R props b e).data ++
            ("undefined".data ++ (liqMrkdwnTail R props e price cs mps crs).data)) ∧
    (checkForNewLiquidations R env (ContractMonitor.construct cfg props) latest).1 =
      (checkForNewLiquidations R env
        (ContractMonitor.construct cfg { props with syntheticCurrencySymbol := s })
        latest).1 ∧
    (checkForNewLiquidations R env (ContractMonitor.construct cfg props)
        latest).2.1.lastLiquidationBlockNumber =
      (checkForNewLiquidations R env
        (ContractMonitor.construct cfg { props with syntheticCurrencySymbol := s })
        latest).2.1.lastLiquidationBlockNumber ∧
    (checkForNewLiquidations R env (ContractMonitor.construct cfg props) latest).2.2 =
      (checkForNewLiquidations R env
        (ContractMonitor.construct cfg { props with syntheticCurrencySymbol := s })
        latest).2.2 := by
  have hev : ∀ e : LiquidationEvent,
      processLiquidationEvent R env
        (ContractMonitor.construct cfg { props with syntheticCurrencySymbol := s }) e =
      processLiquidationEvent R env (ContractMonitor.construct cfg props) e :=
    fun e => rfl
  have hloop : ∀ l : List LiquidationEvent,
      processLiquidationEvents R env
        (ContractMonitor.construct cfg { props with syntheticCurrencySymbol := s }) l =
      processLiquidationEvents R env (ContractMonitor.construct cfg props) l := by
    intro l
    induction l with
    | nil => rfl
    | cons e rest ih => simp only [processLiquidationEvents, hev, ih]
  have hwm : (ContractMonitor.construct cfg
      { props with syntheticCurrencySymbol := s }).lastLiquidationBlockNumber =
      (ContractMonitor.construct cfg props).lastLiquidationBlockNumber := rfl
  refine ⟨rfl, ?_, ?_, ?_, ?_⟩
  · intro b e price cs mps crs
    simp only [liquidationMrkdwn, liqMrkdwnHead, liqMrkdwnTail, ContractMonitor.construct,
      renderJsString, string_data_append, List.append_assoc]
  all_goals
    simp only [checkForNewLiquidations, hwm, hloop]
    cases processLiquidationEvents R env (ContractMonitor.construct cfg props)
        (newEvents latest (ContractMonitor.construct cfg props).lastLiquidationBlockNumber) with
    | completed more => rfl
    | aborted more err => rfl

end Spec2Proof
